import Mathlib

/-!
Verification development for the oxidrop peer-to-peer file-sharing core
(`src/lib.rs` and `src/main.rs`).

The Rust code is shallowly embedded: values flowing through the streams
become Lean structures, the `filter_map` adapters become Lean functions
on single items, the refcounted discovery lifecycle becomes a transition
system, and the TUI selection-list handling becomes a step function over
an application state.  Fallible operations (`unwrap`, indexing) are
modelled as `Option`, where `none` stands for a panic.
-/

namespace Oxidrop

/-- Raw endpoint-discovery event, mirroring `rqs_lib::EndpointInfo` as used
by `lib.rs` (fields `id`, `name`, `fullname`, `ip`, `port`; spec section 6:
`{id, name?, fullname, ip?, port?}`). -/
structure EndpointInfo where
  id : String
  name : Option String
  fullname : String
  ip : Option String
  port : Option String
deriving DecidableEq

/-- Rust `pub struct Endpoint(EndpointInfo)` from `lib.rs:21`. -/
structure Endpoint where
  info : EndpointInfo
deriving DecidableEq

/-- Equality of endpoints, `impl PartialEq for Endpoint` (`lib.rs:68-72`): by `id` only. -/
def Endpoint.beq (a b : Endpoint) : Bool :=
  a.info.id == b.info.id

/-- Mirror of `rqs_lib::channel::ChannelDirection` as used by `lib.rs`. -/
inductive ChannelDirection where
  | FrontToLib
  | LibToFront
deriving DecidableEq

/-- Mirror of `rqs_lib::channel::TransferType` as used by `lib.rs`. -/
inductive TransferType where
  | Inbound
  | Outbound
deriving DecidableEq

/-- Mirror of `rqs_lib::State`: only `WaitingForUserConsent` is matched by the code;
the other constructors stand for the remaining engine states. -/
inductive TransferState where
  | Initial
  | ReceivedConnectionRequest
  | WaitingForUserConsent
  | ReceivingFiles
  | Finished
  | Disconnected
deriving DecidableEq

/-- Mirror of `rqs_lib::channel::ChannelAction` as used by `lib.rs`. -/
inductive ChannelAction where
  | AcceptTransfer
  | RejectTransfer
deriving DecidableEq

/-- Source of transfer metadata (`meta.source`), carrying the sender name
used by `TransferRequest::sender_name` (`lib.rs:83-90`). -/
structure MetaSource where
  name : String
deriving DecidableEq

/-- Transfer metadata (`msg.meta`); `accept_transfer`/`reject_transfer`
use `meta.id` (`lib.rs:120`, `lib.rs:136`). -/
structure TransferMetadata where
  id : String
  source : Option MetaSource
deriving DecidableEq

/-- Raw channel message, mirroring `rqs_lib::channel::ChannelMessage` as
used by `lib.rs` (spec section 6: `{id, direction, rtype?, state?, meta?}`,
plus the `action` field set by accept/reject). -/
structure ChannelMessage where
  id : String
  direction : ChannelDirection
  action : Option ChannelAction
  rtype : Option TransferType
  state : Option TransferState
  meta : Option TransferMetadata
deriving DecidableEq

/-- Rust `pub struct TransferRequest(ChannelMessage)` from `lib.rs:18`. -/
structure TransferRequest where
  msg : ChannelMessage
deriving DecidableEq

/-- Equality of transfer requests, `impl PartialEq for TransferRequest` (`lib.rs:54-58`): by `id` only. -/
def TransferRequest.beq (a b : TransferRequest) : Bool :=
  a.msg.id == b.msg.id

/-- One item received from a tokio `BroadcastStream`: either a delivered
value or a `Lagged(n)` error for a slow subscriber. -/
inductive RecvItem (α : Type) where
  | ok (a : α)
  | lagged (n : Nat)

/-- Rust `Result::ok()` on a broadcast receive item. -/
def RecvItem.toOption {α : Type} : RecvItem α → Option α
  | .ok a => some a
  | .lagged _ => none

/-- The per-item body of the `filter_map` in `discover_endpoints`
(`lib.rs:229-233`): `r.ok().filter(|e| e.ip.is_some() && e.port.is_some())
.map(|e| Endpoint(e))`. -/
def endpointFilterMap (r : RecvItem EndpointInfo) : Option Endpoint :=
  (r.toOption.filter (fun e => e.ip.isSome && e.port.isSome)).map Endpoint.mk

/-- The per-item body of the `filter_map` in `get_transfer_requests`
(`lib.rs:247-256`): forward the message as a `TransferRequest` exactly when
`(direction, rtype, state)` is
`(LibToFront, Some(Inbound), Some(WaitingForUserConsent))`. -/
def transferFilterMap (r : RecvItem ChannelMessage) : Option TransferRequest :=
  r.toOption.bind (fun msg =>
    match msg.direction, msg.rtype, msg.state with
    | .LibToFront, some .Inbound, some .WaitingForUserConsent =>
        some (TransferRequest.mk msg)
    | _, _, _ => none)

/-- The address string built by `send_files` (`lib.rs:160`):
`endpoint.0.ip.clone().unwrap() + ":" + endpoint.0.port.as_ref().unwrap()`.
`none` models a panic of either `unwrap`. -/
def sendFilesAddr (e : EndpointInfo) : Option String :=
  match e.ip, e.port with
  | some ip, some port => some (ip ++ ":" ++ port)
  | _, _ => none

/-- The message id built by `accept_transfer` (`lib.rs:120`) and
`reject_transfer` (`lib.rs:136`): `request.0.meta.as_ref().unwrap().id`.
`none` models a panic of the `unwrap`. -/
def acceptTransferMsgId (r : TransferRequest) : Option String :=
  r.msg.meta.map (fun m => m.id)

/-- Rust `IndexSet::insert` (`main.rs:137`, `main.rs:216`) on the endpoint list,
with `Endpoint` equality by `id` (`lib.rs:68-72`): append at the end unless
an identity-equal element is already present, in which case keep the list
(the first-inserted value is retained). -/
def insertEndpoint (l : List Endpoint) (e : Endpoint) : List Endpoint :=
  if l.any (fun x => Endpoint.beq x e) then l else l ++ [e]

/-- The library error type (`lib.rs:32-38`); the boxed dynamic cause of
`Other` is modelled as a string. -/
inductive Error where
  | CorruptedState
  | Other (cause : String)
deriving DecidableEq

/-- Environment of one `discover_endpoints` call (`lib.rs:173-237`):
whether each of the two mutexes it may lock is poisoned, whether the weak
broadcast sender held by the hub is upgradeable (a live channel exists),
and the outcome `rqs.discovery(...)` would have (`none` = the engine
starts fine, `some c` = it fails with cause `c`). -/
structure DiscoverEnv where
  endpointSendPoisoned : Bool
  rqsPoisoned : Bool
  senderAlive : Bool
  discoveryFailure : Option String
deriving DecidableEq

/-- Control flow of `discover_endpoints` (`lib.rs:206-236`): lock the
`endpoint_send` mutex (poisoned ⇒ `CorruptedState`, `lib.rs:210`); if the
weak sender upgrades, subscribe to the existing channel; otherwise create
a channel, lock `rqs` (poisoned ⇒ `CorruptedState`, `lib.rs:219`) and
start discovery (engine failure ⇒ `Other`, `lib.rs:221`).  `ok true`
means a fresh channel was created and discovery started; `ok false`
means an existing channel was reused. -/
def discover_endpoints (env : DiscoverEnv) : Except Error Bool :=
  if env.endpointSendPoisoned then .error .CorruptedState
  else if env.senderAlive then .ok false
  else if env.rqsPoisoned then .error .CorruptedState
  else
    match env.discoveryFailure with
    | some c => .error (.Other c)
    | none => .ok true

/-- The code sites that acquire the `Mutex<RQS>` protecting the shared
discovery/transfer engine. -/
inductive LockSite where
  | acceptTransfer
  | rejectTransfer
  | getTransferRequests
  | discoverEndpointsStart
  | streamWrapperDrop
deriving DecidableEq

/-- What a lock acquisition does at each site. -/
inductive LockOutcome where
  | acquired
  | corruptedState
  | recoveredInner
deriving DecidableEq

/-- How each `rqs.lock()` site handles poisoning.  The four fallible call
sites map a poisoned lock to `Error::CorruptedState`
(`lib.rs:117`, `lib.rs:133`, `lib.rs:219`, `lib.rs:243`); the guard's
disposal path (`lib.rs:199-200`) instead runs
`unwrap_or_else(|e| e.into_inner())`, recovering the inner state of a
poisoned lock and proceeding with `stop_discovery()`. -/
def rqsLockBehavior : LockSite → Bool → LockOutcome
  | _, false => .acquired
  | .acceptTransfer, true => .corruptedState
  | .rejectTransfer, true => .corruptedState
  | .getTransferRequests, true => .corruptedState
  | .discoverEndpointsStart, true => .corruptedState
  | .streamWrapperDrop, true => .recoveredInner

/-- State of the subscription hub, the broadcast channel and the external
discovery resource.  `receivers` is the channel's live subscriber count
(tokio `Sender::receiver_count`), `senderAlive` whether the hub's weak
sender is upgradeable — the only strong sender is the clone handed to
`rqs.discovery(endpoint_send.clone())` (`lib.rs:220`), held by the engine
while discovery runs and released by `stop_discovery` (spec section 6
specifies the engine boundary: `start_discovery(producer_handle)` /
`stop_discovery()`) — `running` whether the discovery resource is running,
and `stops` the cumulative number of `stop_discovery` calls. -/
structure HubState where
  receivers : Nat
  senderAlive : Bool
  running : Bool
  stops : Nat
deriving DecidableEq

/-- State right after `Oxidrop::new` (`lib.rs:104`): the hub stores the
downgrade of a sender that is dropped immediately, so the weak handle is
dead, no receiver exists and discovery is not running. -/
def initHub : HubState :=
  { receivers := 0, senderAlive := false, running := false, stops := 0 }

/-- A successful `discover_endpoints` call (`lib.rs:206-225`): if the weak
sender upgrades, `subscribe()` adds one receiver to the existing channel;
otherwise a channel with one receiver is created and the engine starts
discovery holding a sender clone. -/
def hubSubscribe (s : HubState) : HubState :=
  if s.senderAlive then { s with receivers := s.receivers + 1 }
  else { receivers := 1, senderAlive := true, running := true, stops := s.stops }

/-- Disposal of one returned stream: `StreamWrapper`'s pinned drop
(`lib.rs:192-204`) runs first — if the weak sender upgrades and
`receiver_count() == 1` (the count still includes this stream's own
receiver) it calls `stop_discovery()`, upon which the engine releases its
sender clone — then the wrapped receiver is dropped, decrementing the
count.  The hub (`Arc<Mutex<RQS>>`) is assumed alive, so `self.1.upgrade()`
succeeds. -/
def hubDispose (s : HubState) : HubState :=
  if s.senderAlive && s.receivers == 1 then
    { receivers := 0, senderAlive := false, running := false, stops := s.stops + 1 }
  else { s with receivers := s.receivers - 1 }

/-- Events of the hub transition system. -/
inductive HubEvent where
  | subscribe
  | dispose
deriving DecidableEq

/-- One hub transition. -/
def hubStep (s : HubState) : HubEvent → HubState
  | .subscribe => hubSubscribe s
  | .dispose => hubDispose s

/-- Run a sequence of hub events. -/
def hubRun (s : HubState) : List HubEvent → HubState
  | [] => s
  | e :: es => hubRun (hubStep s e) es

/-- A trace is valid from `s` when every `dispose` disposes an actually
live stream (there is a receiver to drop). -/
def hubValid (s : HubState) : List HubEvent → Bool
  | [] => true
  | e :: es =>
    (match e with
     | .subscribe => true
     | .dispose => decide (0 < s.receivers)) && hubValid (hubStep s e) es

/-- Largest value of a 64-bit `usize`; the TUI cursor lives in `usize`. -/
def USIZE_MAX : Nat := 2 ^ 64 - 1

/-- Rust `usize::saturating_add(1)`. -/
def satAddOne (n : Nat) : Nat := min (n + 1) USIZE_MAX

/-- Behaviour of ratatui `ListState::select_next` (`main.rs:146`,
`main.rs:228`): set the selection to `selected.map_or(0, |i|
i.saturating_add(1))`; it does not know the list length, so the index may
run past the end until a render clamps it. -/
def select_next (s : Option Nat) : Option Nat :=
  match s with
  | none => some 0
  | some i => some (satAddOne i)

/-- Behaviour of ratatui `ListState::select_previous` (`main.rs:142`,
`main.rs:222`): set the selection to `selected.map_or(usize::MAX, |i|
i.saturating_sub(1))`; `usize::MAX` is clamped to the last index at the
next render of a non-empty list. -/
def select_previous (s : Option Nat) : Option Nat :=
  match s with
  | none => some USIZE_MAX
  | some i => some (i - 1)

/-- Behaviour of ratatui's stateful `List` render on the selection: with
no items it returns early leaving the selection untouched; otherwise an
out-of-bounds selection is clamped to the last index. -/
def listRenderClamp (len : Nat) (s : Option Nat) : Option Nat :=
  if len = 0 then s else s.map (fun i => min i (len - 1))

/-- Selection-list state of one TUI mode: the deduplicated item sequence
(`IndexSet`) plus the ratatui cursor (`ListState`, an optional index).
This is the part of `AppState` (`main.rs:51-57`) the claims are about;
`do_send` uses it with `Endpoint` items and `do_receive` with
`TransferRequest` items. -/
structure AppList (α : Type) where
  items : List α
  cursor : Option Nat

/-- Rust `IndexSet::insert` for an arbitrary identity test: append at the
end unless an equal element is already present, in which case keep the
list unchanged (the first-inserted value is retained). -/
def insertDedup {α : Type} (eqb : α → α → Bool) (l : List α) (e : α) : List α :=
  if l.any (fun x => eqb x e) then l else l ++ [e]

/-- The selection-relevant events of the `do_send` / `do_receive` loops
(`main.rs:134-169`, `main.rs:213-254`): a new item arriving from the
library stream, the Up / Down key events and Confirm. -/
inductive AppEvent (α : Type) where
  | insert (e : α)
  | up
  | down
  | confirm

/-- Effect of the `draw` calls (`render_send` / `render_receive`,
`main.rs:110-119`, `main.rs:191-202`) on the selection: with an empty item
list only a plain text line is rendered and the `ListState` is untouched;
otherwise the stateful list render clamps the cursor. -/
def drawList {α : Type} (st : AppList α) : AppList α :=
  if st.items.isEmpty then st
  else { st with cursor := listRenderClamp st.items.length st.cursor }

/-- One iteration of the event loop, as `do_send` (`main.rs:134-168`) and
`do_receive` (`main.rs:213-253`) handle the selection-relevant events:
insert then draw; `select_previous` / `select_next` then draw; Confirm
reads `list_state.selected()` and indexes the item set without mutating
the state. -/
def appStep {α : Type} (eqb : α → α → Bool) (st : AppList α) :
    AppEvent α → AppList α
  | .insert e => drawList { st with items := insertDedup eqb st.items e }
  | .up => drawList { st with cursor := select_previous st.cursor }
  | .down => drawList { st with cursor := select_next st.cursor }
  | .confirm => st

/-- Run a sequence of loop events. -/
def appRun {α : Type} (eqb : α → α → Bool) (st : AppList α) :
    List (AppEvent α) → AppList α
  | [] => st
  | e :: es => appRun eqb (appStep eqb st e) es

/-- Initial state (`AppState::new`, `main.rs:60-68`): empty item set,
default `ListState` with no selection. -/
def initApp {α : Type} : AppList α :=
  { items := [], cursor := none }

/-- The indexing done on Confirm (`main.rs:149-155`, `main.rs:233-238`):
`none` when no cursor is set (the loop just continues); `some r` when the
cursor is set and `state.endpoints[i]` / `state.requests[i]` is evaluated,
where `r = none` models the out-of-bounds panic of `IndexSet` indexing. -/
def confirmIndex {α : Type} (st : AppList α) : Option (Option α) :=
  st.cursor.map (fun i => st.items.get? i)

/-! ## Hub lifecycle lemmas -/

/-- Running a concatenation of event lists runs them in sequence. -/
theorem hubRun_append (t1 t2 : List HubEvent) (s : HubState) :
    hubRun s (t1 ++ t2) = hubRun (hubRun s t1) t2 := by
  induction t1 generalizing s with
  | nil => rfl
  | cons e es ih => simp [hubRun, ih]

/-- Subscribing `n` more times to a live channel adds `n` receivers. -/
theorem hubRun_subscribes (n m stops : Nat) :
    hubRun { receivers := m, senderAlive := true, running := true, stops := stops }
        (List.replicate n HubEvent.subscribe)
      = { receivers := m + n, senderAlive := true, running := true,
          stops := stops } := by
  induction n generalizing m with
  | zero => rfl
  | succ n ih =>
      rw [List.replicate_succ]
      have h1 : hubStep
          { receivers := m, senderAlive := true, running := true, stops := stops }
          HubEvent.subscribe
          = { receivers := m + 1, senderAlive := true, running := true,
              stops := stops } := by
        simp [hubStep, hubSubscribe]
      rw [hubRun, h1, ih]
      congr 1
      omega

/-- Disposing `k ≤ m` of `m` live subscriptions: while some remain the
channel stays alive and discovery keeps running with no stop call; when
the last one goes, `stop_discovery` is called exactly once. -/
theorem hubRun_disposes (k : Nat) :
    ∀ m stops : Nat, 0 < m → k ≤ m →
    hubRun { receivers := m, senderAlive := true, running := true, stops := stops }
        (List.replicate k HubEvent.dispose)
      = if k = m
        then { receivers := 0, senderAlive := false, running := false,
               stops := stops + 1 }
        else { receivers := m - k, senderAlive := true, running := true,
               stops := stops } := by
  induction k with
  | zero =>
      intro m stops hm hk
      have h0 : ¬ (0 = m) := by omega
      simp [hubRun, h0]
  | succ k ih =>
      intro m stops hm hk
      rw [List.replicate_succ]
      by_cases h1 : m = 1
      · subst h1
        have hk0 : k = 0 := by omega
        subst hk0
        simp [hubRun, hubStep, hubDispose]
      · have hb : (m == 1) = false := by
          simp [Nat.beq_eq_true_eq, h1]
        have hstep : hubStep
            { receivers := m, senderAlive := true, running := true, stops := stops }
            HubEvent.dispose
            = { receivers := m - 1, senderAlive := true, running := true,
                stops := stops } := by
          simp [hubStep, hubDispose, hb]
        rw [hubRun, hstep, ih (m - 1) stops (by omega) (by omega)]
        by_cases hk1 : k + 1 = m
        · have hkm : k = m - 1 := by omega
          have hm1 : m - 1 + 1 = m := by omega
          simp [hk1, hkm, hm1]
        · have hkm : ¬ (k = m - 1) := by omega
          simp [hk1, hkm]
          omega

/-- The C1 invariant: discovery is running iff some subscriber is live,
and the channel is alive iff discovery is running. -/
def HubInv (s : HubState) : Prop :=
  (s.running = true ↔ 0 < s.receivers) ∧ s.senderAlive = s.running

/-- Subscribing preserves the invariant. -/
theorem hubInv_subscribe (s : HubState) (hs : HubInv s) :
    HubInv (hubSubscribe s) := by
  rcases hs with ⟨h1, h2⟩
  by_cases ha : s.senderAlive = true
  · have hr : s.running = true := h2.symm.trans ha
    simp [hubSubscribe, ha, HubInv, hr, h2]
  · simp [hubSubscribe, ha, HubInv]

/-- Disposing a live subscription preserves the invariant. -/
theorem hubInv_dispose (s : HubState) (hs : HubInv s)
    (hr : 0 < s.receivers) : HubInv (hubDispose s) := by
  rcases hs with ⟨h1, h2⟩
  have hrun : s.running = true := h1.mpr hr
  have halive : s.senderAlive = true := h2.trans hrun
  by_cases hc : s.receivers = 1
  · simp [hubDispose, halive, hc, HubInv]
  · have hb : (s.receivers == 1) = false := by
      simp [Nat.beq_eq_true_eq, hc]
    simp [hubDispose, halive, hb, HubInv, hrun, h2]
    omega

/-- Any valid run from an invariant state lands in an invariant state. -/
theorem hubInv_run (t : List HubEvent) :
    ∀ s : HubState, HubInv s → hubValid s t = true → HubInv (hubRun s t) := by
  induction t with
  | nil => intro s hs _; exact hs
  | cons e es ih =>
      intro s hs hv
      cases e with
      | subscribe =>
          simp only [hubValid, Bool.and_eq_true] at hv
          exact ih _ (hubInv_subscribe s hs) hv.2
      | dispose =>
          simp only [hubValid, Bool.and_eq_true, decide_eq_true_eq] at hv
          exact ih _ (hubInv_dispose s hs hv.1) hv.2

/-! ## Claim theorems -/

/-- C1: (a) along every valid sequence of `discover_endpoints`
subscriptions and stream disposals, the external discovery resource is
running iff the fan-out channel has at least one live subscriber; (b) for
`N ≥ 1` subscriptions followed by `k ≤ N` disposals (all disposals being
symmetric, this covers every disposal order), no stop happens and the
resource keeps running while subscribers remain, and disposal of the last
subscription stops the resource exactly once. -/
theorem discovery_refcount_lifecycle :
    (∀ t : List HubEvent, hubValid initHub t = true →
      ((hubRun initHub t).running = true ↔ 0 < (hubRun initHub t).receivers)) ∧
    (∀ N k : Nat, 0 < N → k ≤ N →
      (hubRun initHub (List.replicate N HubEvent.subscribe ++
          List.replicate k HubEvent.dispose)).stops
          = (if k = N then 1 else 0) ∧
      ((hubRun initHub (List.replicate N HubEvent.subscribe ++
          List.replicate k HubEvent.dispose)).running = true ↔ k < N)) := by
  constructor
  · intro t hv
    have : HubInv (hubRun initHub t) :=
      hubInv_run t initHub (by simp [HubInv, initHub]) hv
    exact this.1
  · intro N k hN hk
    have hsub : hubRun initHub (List.replicate N HubEvent.subscribe)
        = { receivers := N, senderAlive := true, running := true, stops := 0 } := by
      rcases N with _ | n
      · omega
      · rw [List.replicate_succ]
        have h1 : hubStep initHub HubEvent.subscribe
            = { receivers := 1, senderAlive := true, running := true,
                stops := 0 } := by
          simp [hubStep, hubSubscribe, initHub]
        rw [hubRun, h1, hubRun_subscribes]
        congr 1
        omega
    rw [hubRun_append, hsub, hubRun_disposes k N 0 hN hk]
    by_cases hkN : k = N
    · simp [hkN]
    · simp [hkN]
      omega

/-- Witness for C1: two subscriptions then two disposals from the initial
state stop discovery exactly once, and the single-subscribe trace leaves
it running. -/
theorem discovery_refcount_lifecycle_witness :
    ((hubRun initHub [HubEvent.subscribe]).running = true ↔
      0 < (hubRun initHub [HubEvent.subscribe]).receivers) ∧
    (hubRun initHub (List.replicate 2 HubEvent.subscribe ++
        List.replicate 2 HubEvent.dispose)).stops = (if 2 = 2 then 1 else 0) :=
  ⟨discovery_refcount_lifecycle.1 [HubEvent.subscribe] (by decide),
   (discovery_refcount_lifecycle.2 2 2 (by decide) (by decide)).1⟩

/-- C4: for every raw endpoint-discovery event, if its `ip` or its `port`
field is absent it never appears in the stream returned by
`discover_endpoints`; if both are present it is forwarded as exactly one
`Endpoint` value per emission. -/
theorem endpoint_filtering (e : EndpointInfo) :
    (endpointFilterMap (RecvItem.ok e) = some (Endpoint.mk e) ↔
      e.ip.isSome = true ∧ e.port.isSome = true) ∧
    ((e.ip = none ∨ e.port = none) → endpointFilterMap (RecvItem.ok e) = none) := by
  rcases e with ⟨id, name, fullname, ip, port⟩
  cases ip <;> cases port <;>
    simp [endpointFilterMap, RecvItem.toOption, Option.filter]

/-- Witness for C4 at a concrete event carrying both address fields. -/
theorem endpoint_filtering_witness :
    endpointFilterMap (RecvItem.ok
        { id := "x", name := none, fullname := "fx",
          ip := some "10.0.0.1", port := some "8080" }) =
      some (Endpoint.mk
        { id := "x", name := none, fullname := "fx",
          ip := some "10.0.0.1", port := some "8080" }) :=
  (endpoint_filtering _).1.mpr ⟨rfl, rfl⟩

/-- C5: for every raw channel message, the stream returned by
`get_transfer_requests` yields exactly one `TransferRequest` when the
message has direction `LibToFront`, transfer type `Inbound` and state
`WaitingForUserConsent`, and yields nothing when any of the three
conditions fails. -/
theorem transfer_filtering (msg : ChannelMessage) :
    (transferFilterMap (RecvItem.ok msg) = some (TransferRequest.mk msg) ↔
      msg.direction = ChannelDirection.LibToFront ∧
        msg.rtype = some TransferType.Inbound ∧
        msg.state = some TransferState.WaitingForUserConsent) ∧
    (¬ (msg.direction = ChannelDirection.LibToFront ∧
          msg.rtype = some TransferType.Inbound ∧
          msg.state = some TransferState.WaitingForUserConsent) →
      transferFilterMap (RecvItem.ok msg) = none) := by
  rcases msg with ⟨id, dir, action, rtype, st, meta⟩
  cases dir <;> rcases rtype with _ | t <;> rcases st with _ | s <;>
    (try cases t) <;> (try cases s) <;>
    simp [transferFilterMap, RecvItem.toOption]

/-- Witness for C5 at a concrete message meeting all three conditions. -/
theorem transfer_filtering_witness :
    transferFilterMap (RecvItem.ok
        { id := "t0", direction := ChannelDirection.LibToFront, action := none,
          rtype := some TransferType.Inbound,
          state := some TransferState.WaitingForUserConsent,
          meta := some { id := "m0", source := none } }) =
      some (TransferRequest.mk
        { id := "t0", direction := ChannelDirection.LibToFront, action := none,
          rtype := some TransferType.Inbound,
          state := some TransferState.WaitingForUserConsent,
          meta := some { id := "m0", source := none } }) :=
  (transfer_filtering _).1.mpr ⟨rfl, rfl, rfl⟩

/-- C6: inserting two `Endpoint` values with equal `id` (whatever their
other fields) into the selection list yields a list of length 1 retaining
the first-inserted value; in general inserting an identity-equal element
is a no-op, with `Endpoint` equality determined by `id` alone. -/
theorem insert_dedup_by_id :
    (∀ e1 e2 : Endpoint, e1.info.id = e2.info.id →
      insertEndpoint (insertEndpoint [] e1) e2 = [e1] ∧
        (insertEndpoint (insertEndpoint [] e1) e2).length = 1) ∧
    (∀ (l : List Endpoint) (e : Endpoint),
      l.any (fun x => Endpoint.beq x e) = true → insertEndpoint l e = l) := by
  constructor
  · intro e1 e2 h
    constructor <;> simp [insertEndpoint, Endpoint.beq, h]
  · intro l e h
    simp [insertEndpoint, h]

/-- Witness for C6 at two concrete endpoints with equal `id` but different
`name`, `ip` and `port`. -/
theorem insert_dedup_by_id_witness :
    insertEndpoint
        (insertEndpoint []
          (Endpoint.mk { id := "a", name := some "n1", fullname := "f1",
                         ip := none, port := none }))
        (Endpoint.mk { id := "a", name := some "n2", fullname := "f2",
                       ip := some "10.0.0.2", port := some "80" }) =
      [Endpoint.mk { id := "a", name := some "n1", fullname := "f1",
                     ip := none, port := none }] :=
  (insert_dedup_by_id.1
    (Endpoint.mk { id := "a", name := some "n1", fullname := "f1",
                   ip := none, port := none })
    (Endpoint.mk { id := "a", name := some "n2", fullname := "f2",
                   ip := some "10.0.0.2", port := some "80" }) rfl).1

/-- C7: `discover_endpoints` returns `CorruptedState` exactly when a lock
it acquires on its executed path is poisoned (the `endpoint_send` mutex
always, the `rqs` mutex only on the channel-creation path), returns
`Other(cause)` exactly when starting the external discovery resource
fails, and returns a subscribed stream in all other cases. -/
theorem discover_endpoints_error_cases (env : DiscoverEnv) :
    (discover_endpoints env = Except.error Error.CorruptedState ↔
      env.endpointSendPoisoned = true ∨
        (env.senderAlive = false ∧ env.rqsPoisoned = true)) ∧
    (∀ c, discover_endpoints env = Except.error (Error.Other c) ↔
      env.endpointSendPoisoned = false ∧ env.senderAlive = false ∧
        env.rqsPoisoned = false ∧ env.discoveryFailure = some c) ∧
    ((∃ b, discover_endpoints env = Except.ok b) ↔
      env.endpointSendPoisoned = false ∧
        (env.senderAlive = true ∨
          (env.rqsPoisoned = false ∧ env.discoveryFailure = none))) := by
  rcases env with ⟨p1, p2, alive, fail⟩
  cases p1 <;> cases p2 <;> cases alive <;> rcases fail with _ | c <;>
    simp [discover_endpoints]

/-- Witness for C7: a poisoned hub lock yields `CorruptedState`. -/
theorem discover_endpoints_error_cases_witness :
    discover_endpoints
        { endpointSendPoisoned := true, rqsPoisoned := false,
          senderAlive := false, discoveryFailure := none } =
      Except.error Error.CorruptedState :=
  (discover_endpoints_error_cases _).1.mpr (Or.inl rfl)

/-- C8 counterexample: on the guard's disposal path (`lib.rs:199-200`) a
poisoned `rqs` lock is not surfaced as `CorruptedState`; the code runs
`unwrap_or_else(|e| e.into_inner())`, recovering the poisoned lock's inner
state and proceeding with the teardown. -/
theorem drop_path_recovers_poisoned_counterexample :
    rqsLockBehavior LockSite.streamWrapperDrop true = LockOutcome.recoveredInner ∧
    rqsLockBehavior LockSite.streamWrapperDrop true ≠ LockOutcome.corruptedState := by
  exact ⟨rfl, by decide⟩

/-- C8 amended: on every fallible path that acquires the `rqs` lock
(`accept_transfer`, `reject_transfer`, `get_transfer_requests`, the
channel-creation path of `discover_endpoints`) a poisoned lock is surfaced
as `CorruptedState`; the guard's disposal path instead recovers the
poisoned lock's inner state and proceeds with the teardown; an unpoisoned
lock is acquired normally everywhere. -/
theorem lock_poisoning_surfacing (site : LockSite) :
    (site ≠ LockSite.streamWrapperDrop →
      rqsLockBehavior site true = LockOutcome.corruptedState) ∧
    rqsLockBehavior LockSite.streamWrapperDrop true = LockOutcome.recoveredInner ∧
    rqsLockBehavior site false = LockOutcome.acquired := by
  cases site <;> exact ⟨fun h => by first | rfl | exact absurd rfl h, rfl, rfl⟩

/-- Witness for C8's amended theorem at the `accept_transfer` site. -/
theorem lock_poisoning_surfacing_witness :
    rqsLockBehavior LockSite.acceptTransfer true = LockOutcome.corruptedState :=
  (lock_poisoning_surfacing LockSite.acceptTransfer).1 (by decide)

/-- C9: every `Endpoint` yielded by the stream returned by
`discover_endpoints` has both `ip` and `port` present, so the two
`unwrap`s in `send_files` never panic on such an endpoint. -/
theorem send_files_total_on_discovered (r : RecvItem EndpointInfo)
    (e : Endpoint) (h : endpointFilterMap r = some e) :
    e.info.ip.isSome = true ∧ e.info.port.isSome = true ∧
      (sendFilesAddr e.info).isSome = true := by
  rcases r with a | n
  · rcases a with ⟨id, name, fullname, ip, port⟩
    cases ip <;> cases port <;>
      simp [endpointFilterMap, RecvItem.toOption, Option.filter] at h
    subst h
    simp [sendFilesAddr]
  · simp [endpointFilterMap, RecvItem.toOption] at h

/-- Witness for C9 at a concrete yielded endpoint. -/
theorem send_files_total_on_discovered_witness :
    (sendFilesAddr { id := "x", name := none, fullname := "fx",
                     ip := some "10.0.0.1", port := some "8080" }).isSome = true :=
  (send_files_total_on_discovered
    (RecvItem.ok { id := "x", name := none, fullname := "fx",
                   ip := some "10.0.0.1", port := some "8080" })
    (Endpoint.mk { id := "x", name := none, fullname := "fx",
                   ip := some "10.0.0.1", port := some "8080" }) rfl).2.2

/-- C10 counterexample: a message with the three filtered fields right but
no `meta` is yielded by `get_transfer_requests`, and on it the
`meta.unwrap()` of `accept_transfer` / `reject_transfer` panics (the
modelled id is `none`). -/
theorem meta_unwrap_counterexample :
    transferFilterMap (RecvItem.ok
        { id := "t1", direction := ChannelDirection.LibToFront, action := none,
          rtype := some TransferType.Inbound,
          state := some TransferState.WaitingForUserConsent, meta := none }) =
      some (TransferRequest.mk
        { id := "t1", direction := ChannelDirection.LibToFront, action := none,
          rtype := some TransferType.Inbound,
          state := some TransferState.WaitingForUserConsent, meta := none }) ∧
    acceptTransferMsgId (TransferRequest.mk
        { id := "t1", direction := ChannelDirection.LibToFront, action := none,
          rtype := some TransferType.Inbound,
          state := some TransferState.WaitingForUserConsent, meta := none }) =
      none := by
  exact ⟨rfl, rfl⟩

/-- C10 amended: the filter of `get_transfer_requests` checks only
direction, transfer type and state, not `meta`; on a yielded request the
`meta.unwrap()` of `accept_transfer` / `reject_transfer` succeeds exactly
when the underlying message carries `meta`. -/
theorem accept_transfer_meta_condition (msg : ChannelMessage)
    (h : transferFilterMap (RecvItem.ok msg) = some (TransferRequest.mk msg)) :
    (acceptTransferMsgId (TransferRequest.mk msg)).isSome = true ↔
      msg.meta.isSome = true := by
  rcases msg with ⟨id, dir, action, rtype, st, meta⟩
  cases meta <;> simp [acceptTransferMsgId]

/-- Witness for C10's amended theorem at a yielded request carrying
`meta`. -/
theorem accept_transfer_meta_condition_witness :
    (acceptTransferMsgId (TransferRequest.mk
        { id := "t0", direction := ChannelDirection.LibToFront, action := none,
          rtype := some TransferType.Inbound,
          state := some TransferState.WaitingForUserConsent,
          meta := some { id := "m0", source := none } })).isSome = true ↔
      (some (TransferMetadata.mk "m0" none)).isSome = true :=
  accept_transfer_meta_condition _ rfl

/-- One Down event on a populated list keeps the items and leaves the
cursor set and clamped below the length. -/
theorem appStep_down_bound {α : Type} (eqb : α → α → Bool) (st : AppList α)
    (h : st.items ≠ []) :
    (appStep eqb st AppEvent.down).items = st.items ∧
    ∃ i, (appStep eqb st AppEvent.down).cursor = some i ∧
      i ≤ st.items.length - 1 := by
  rcases st with ⟨items, cursor⟩
  have hem : items.isEmpty = false := List.isEmpty_eq_false.mpr h
  have hl0 : ¬ (items.length = 0) := by simpa using h
  cases cursor with
  | none =>
      refine ⟨?_, 0, ?_, Nat.zero_le _⟩ <;>
        simp [appStep, drawList, hem, select_next, listRenderClamp, hl0]
  | some i =>
      refine ⟨?_, min (satAddOne i) (items.length - 1), ?_, Nat.min_le_right _ _⟩ <;>
        simp [appStep, drawList, hem, select_next, listRenderClamp, hl0]

/-- Repeated Down events on a populated list keep the items, and the
resulting cursor is clamped below the length unless no event ran at all
and the cursor is the starting one. -/
theorem appRun_downs_bound {α : Type} (eqb : α → α → Bool) (n : Nat) :
    ∀ st : AppList α, st.items ≠ [] →
      (appRun eqb st (List.replicate n AppEvent.down)).items = st.items ∧
      (∀ i, (appRun eqb st (List.replicate n AppEvent.down)).cursor = some i →
        i ≤ st.items.length - 1 ∨ (n = 0 ∧ st.cursor = some i)) := by
  induction n with
  | zero =>
      intro st h
      exact ⟨rfl, fun i hi => Or.inr ⟨rfl, hi⟩⟩
  | succ n ih =>
      intro st h
      rw [List.replicate_succ]
      obtain ⟨hitems, i0, hc0, hb0⟩ := appStep_down_bound eqb st h
      have h' : (appStep eqb st AppEvent.down).items ≠ [] := by
        rw [hitems]; exact h
      obtain ⟨hitems', hbound'⟩ := ih (appStep eqb st AppEvent.down) h'
      rw [show appRun eqb st (AppEvent.down :: List.replicate n AppEvent.down)
            = appRun eqb (appStep eqb st AppEvent.down)
                (List.replicate n AppEvent.down) from rfl]
      refine ⟨hitems'.trans hitems, fun i hi => ?_⟩
      rcases hbound' i hi with hb | ⟨_, hceq⟩
      · rw [hitems] at hb
        exact Or.inl hb
      · rw [hc0] at hceq
        obtain rfl : i0 = i := Option.some.inj hceq
        exact Or.inl hb0

/-- C2 (evaluation at the failing input): from the initial empty state,
one Down event sets the cursor to `some 0` while the item list is still
empty — `select_next` does not know the length and the draw skips the
stateful list render on an empty list, so nothing clamps or clears the
selection — and the indexing then performed on Confirm
(`state.endpoints[i]`, `main.rs:154`; `state.requests[i]`, `main.rs:237`)
is out of bounds (`some none` = cursor present, lookup panics). -/
theorem cursor_invariant_fails_down_confirm_empty :
    (appRun Endpoint.beq (initApp : AppList Endpoint) [AppEvent.down]).cursor
        = some 0 ∧
    (appRun Endpoint.beq (initApp : AppList Endpoint) [AppEvent.down]).items.length
        = 0 ∧
    confirmIndex (appRun Endpoint.beq (initApp : AppList Endpoint)
        [AppEvent.down, AppEvent.confirm]) = some none := by
  exact ⟨rfl, rfl, rfl⟩

/-- C3: on a populated list of length `L` (with `L` a representable
`usize`), at least one Down event from any starting cursor leaves the
cursor at most `L - 1`, any number of Up events leaves it at least 0, and
from an unset cursor one Up event sets it to the last index and one Down
event sets it to 0. -/
theorem cursor_clamping (st : AppList Endpoint) (n : Nat)
    (hne : st.items ≠ []) (hlen : st.items.length ≤ USIZE_MAX) (hn : 0 < n) :
    (∀ i, (appRun Endpoint.beq st (List.replicate n AppEvent.down)).cursor
        = some i → i ≤ st.items.length - 1) ∧
    (∀ i, (appRun Endpoint.beq st (List.replicate n AppEvent.up)).cursor
        = some i → 0 ≤ i) ∧
    (st.cursor = none →
      (appStep Endpoint.beq st AppEvent.up).cursor
          = some (st.items.length - 1) ∧
      (appStep Endpoint.beq st AppEvent.down).cursor = some 0) := by
  refine ⟨?_, fun i _ => Nat.zero_le i, ?_⟩
  · intro i hi
    rcases (appRun_downs_bound Endpoint.beq n st hne).2 i hi with hb | ⟨hn0, _⟩
    · exact hb
    · omega
  · intro hc
    rcases st with ⟨items, cursor⟩
    have hem : items.isEmpty = false := List.isEmpty_eq_false.mpr hne
    have hl0 : ¬ (items.length = 0) := by simpa using hne
    have hmax : items.length - 1 ≤ USIZE_MAX := by
      simp only [USIZE_MAX] at hlen ⊢
      omega
    simp only at hc
    subst hc
    constructor
    · simp [appStep, drawList, hem, select_previous, listRenderClamp, hl0,
        Nat.min_eq_right hmax]
    · simp [appStep, drawList, hem, select_next, listRenderClamp, hl0]

/-- Witness for C3 on a concrete one-element list with a far-off starting
cursor for the Down part, and an unset cursor for the Up / Down part. -/
theorem cursor_clamping_witness :
    (∀ i, (appRun Endpoint.beq
        (AppList.mk [Endpoint.mk { id := "a", name := none, fullname := "f",
                                   ip := none, port := none }] none)
        (List.replicate 1 AppEvent.down)).cursor = some i → i ≤ 0) ∧
    (appStep Endpoint.beq
        (AppList.mk [Endpoint.mk { id := "a", name := none, fullname := "f",
                                   ip := none, port := none }] none)
        AppEvent.up).cursor = some 0 :=
  ⟨fun i hi =>
    (cursor_clamping
      (AppList.mk [Endpoint.mk { id := "a", name := none, fullname := "f",
                                 ip := none, port := none }] none)
      1 (by simp) (by simp [USIZE_MAX]) (by decide)).1 i hi,
   ((cursor_clamping
      (AppList.mk [Endpoint.mk { id := "a", name := none, fullname := "f",
                                 ip := none, port := none }] none)
      1 (by simp) (by simp [USIZE_MAX]) (by decide)).2.2 rfl).1⟩

end Oxidrop
